import Mathlib

/-!
Verification of the SAFEWAVE risk escalation engine (cloud-api/main.py).

The engine consumes one sensor reading per invocation of the POST /predict
endpoint, scores it with fixed thresholds and weights, updates a persisted
hysteresis counter, derives a three-level status with temperature-dominant
precedence, persists the new state and returns a decision record.

Embedding notes.
* Sensor fields are Python floats compared against the literal thresholds
  25, 34, 50, 250, 7.5 and 30; every constant in the program is an exact
  decimal, so the fields are modelled as rational numbers.
* The counter `high_count` is a Python int, modelled as an integer.
* The current month is read from the ambient clock
  (`datetime.utcnow().month`); it is passed explicitly as a `month`
  argument, the only ambient input of the decision logic.
* The external classifier (`rf.predict` / `le.inverse_transform`, lines
  90-92) is called with no exception handling whatsoever; it is modelled as
  an `Option String` argument: `some label` is a successful classification
  and `none` a raised exception, which the code lets propagate, so `predict`
  returns in the error monad in that case.
* The Firestore state document is modelled as `Option RiskState` (`none`
  when no document exists, as in `get_state`, lines 43-47); `predict`
  returns the `RiskState` that `save_state` (lines 49-54) persists together
  with the record appended to the reading log.
-/

set_option allowUnsafeReducibility true
attribute [semireducible] Rat.add Rat.mul Rat.inv Rat.sub Rat.ofScientific

namespace SafeWave

/-- The three-level published status, ordered by severity via `severity`. -/
inductive Status where
  | SAFE
  | WARNING
  | HIGH_RISK
deriving DecidableEq, Repr

/-- Severity rank of a status: SAFE 0, WARNING 1, HIGH_RISK 2. -/
def severity : Status → Nat
  | Status.SAFE => 0
  | Status.WARNING => 1
  | Status.HIGH_RISK => 2

/-- Input schema of POST /predict (class SensorData, lines 59-64):
ph, temp, tds, turb are floats, flow an int (0 = stagnant, 1 = flowing). -/
structure SensorData where
  ph : ℚ
  temp : ℚ
  tds : ℚ
  turb : ℚ
  flow : Int
deriving DecidableEq, Repr

/-- The persisted risk state document (collection "system", doc
"risk_state"): the hysteresis counter and the last published status. -/
structure RiskState where
  high_count : Int
  status : Status
deriving DecidableEq, Repr

/-- get_state (lines 43-47): the stored document when it exists, otherwise
the default dict with high_count 0 and status SAFE. -/
def get_state (doc : Option RiskState) : RiskState :=
  match doc with
  | some s => s
  | none => { high_count := 0, status := Status.SAFE }

/-- save_state (lines 49-54) writes exactly the pair (high_count, status)
as the new state document. -/
def save_state (high_count : Int) (status : Status) : RiskState :=
  { high_count := high_count, status := status }

/-- Line 77: cool temperature zone, temp < 25. -/
def cool_temp (d : SensorData) : Bool := decide (d.temp < 25)

/-- Line 78: moderate temperature zone, 25 <= temp < 34. -/
def moderate_temp (d : SensorData) : Bool := decide (25 ≤ d.temp ∧ d.temp < 34)

/-- Line 79: high (strong growth) temperature zone, temp >= 34. -/
def high_temp (d : SensorData) : Bool := decide (34 ≤ d.temp)

/-- Line 82: turbidity risk, turb >= 50. -/
def turb_risk (d : SensorData) : Bool := decide (50 ≤ d.turb)

/-- Line 83: TDS risk, tds >= 250. -/
def tds_risk (d : SensorData) : Bool := decide (250 ≤ d.tds)

/-- Line 84: stagnant water risk, flow == 0. -/
def flow_risk (d : SensorData) : Bool := decide (d.flow = 0)

/-- Line 85: pH risk, ph >= 7.5. -/
def ph_risk (d : SensorData) : Bool := decide ((7.5 : ℚ) ≤ d.ph)

/-- Lines 117-118: the summer seasonal boost condition, month in
[4,5,6,7,8,9] and temp >= 30. -/
def season_boost (month : Nat) (d : SensorData) : Bool :=
  decide (month ∈ [4, 5, 6, 7, 8, 9]) && decide ((30 : ℚ) ≤ d.temp)

/-- Lines 97-119: the biological score, a weighted sum of the active flags
(high temperature 3, moderate 1, turbidity 1.5, TDS 1, stagnation 1,
pH 0.5) plus the 0.5 seasonal boost. -/
def bio_score (d : SensorData) (month : Nat) : ℚ :=
  (if high_temp d then 3 else if moderate_temp d then 1 else 0)
    + (if turb_risk d then 1.5 else 0)
    + (if tds_risk d then 1 else 0)
    + (if flow_risk d then 1 else 0)
    + (if ph_risk d then 0.5 else 0)
    + (if season_boost month d then 0.5 else 0)

/-- Python int() applied to a rational: truncation toward zero. -/
def py_int (q : ℚ) : Int := if 0 ≤ q then ⌊q⌋ else ⌈q⌉

/-- Line 122: risk_percent = min(100, int((bio_score / 7) * 100)). -/
def risk_percent (d : SensorData) (month : Nat) : Int :=
  min 100 (py_int (bio_score d month / 7 * 100))

/-- Lines 130-133: counter update; increment by 1 on a reading with
bio_score >= 4, otherwise decay by 2, clamped at zero. -/
def update_high_count (score : ℚ) (hc : Int) : Int :=
  if 4 ≤ score then hc + 1 else max 0 (hc - 2)

/-- Lines 139-143: weighted sum of the non-temperature flags (turbidity 1,
TDS 1, stagnation 1, pH 0.5). -/
def other_score (d : SensorData) : ℚ :=
  (if turb_risk d then 1 else 0)
    + (if tds_risk d then 1 else 0)
    + (if flow_risk d then 1 else 0)
    + (if ph_risk d then 0.5 else 0)

/-- Lines 146-164: the temperature-dominant status decision, evaluated on
the already-updated counter `hc`. Cool always yields SAFE; moderate yields
SAFE below the 1.5 secondary threshold and WARNING at or above it; high
temperature yields WARNING below the secondary threshold, and otherwise
HIGH_RISK exactly when the counter has reached 6. -/
def new_status (d : SensorData) (hc : Int) : Status :=
  if cool_temp d then Status.SAFE
  else if moderate_temp d then
    (if other_score d < 1.5 then Status.SAFE else Status.WARNING)
  else
    (if other_score d < 1.5 then Status.WARNING
     else if 6 ≤ hc then Status.HIGH_RISK else Status.WARNING)

/-- One pass of the stateful decision logic of /predict (lines 127-166):
update the counter from the biological score, then derive the status from
the updated counter; the resulting pair is what save_state persists. -/
def step (month : Nat) (d : SensorData) (prior : RiskState) : RiskState :=
  save_state
    (update_high_count (bio_score d month) prior.high_count)
    (new_status d (update_high_count (bio_score d month) prior.high_count))

/-- The record stored in the reading log and returned to the caller
(lines 171-186). The source stores round(bio_score, 2), which is the
identity here because every reachable score is a multiple of one half. -/
structure DecisionRecord where
  ph : ℚ
  temp : ℚ
  tds : ℚ
  turb : ℚ
  flow : Int
  instant : String
  bio_score : ℚ
  risk_percent : Int
  high_count : Int
  status : Status
deriving DecidableEq, Repr

/-- The /predict endpoint (lines 69-186). `instant_ml` is the advisory
classifier outcome: `some label` on success, `none` when the classifier
call raises (lines 90-92 have no exception handler, so the error
propagates and nothing is computed or persisted). `doc` is the stored
state document, `month` the current calendar month. On success the result
is the persisted new state paired with the logged and returned record. -/
def predict (instant_ml : Option String) (month : Nat) (doc : Option RiskState)
    (d : SensorData) : Except Unit (RiskState × DecisionRecord) :=
  match instant_ml with
  | none => Except.error ()
  | some label =>
      Except.ok (step month d (get_state doc),
        { ph := d.ph, temp := d.temp, tds := d.tds, turb := d.turb, flow := d.flow,
          instant := label,
          bio_score := bio_score d month,
          risk_percent := risk_percent d month,
          high_count := (step month d (get_state doc)).high_count,
          status := (step month d (get_state doc)).status })

/-- Replaying the same reading: the state after n invocations of /predict
on reading d during month, starting from state st. -/
def run_from (month : Nat) (d : SensorData) (st : RiskState) : Nat → RiskState
  | 0 => st
  | Nat.succ n => step month d (run_from month d st n)

/-- The counter alone, folded over a list of readings within one month. -/
def fold_high_count (month : Nat) (ds : List SensorData) (hc : Int) : Int :=
  ds.foldl (fun h d => update_high_count (bio_score d month) h) hc

/-- Two concurrent /predict invocations for the same state document,
interleaved read-read-write-write: both run get_state (line 127) before
either save_state (line 166) runs, and the second write overwrites the
first, because the code performs a plain document get and set with no
transaction or conditional write. The value is the finally persisted
state. -/
def racy_final (month : Nat) (dA dB : SensorData) (doc : Option RiskState) : RiskState :=
  let readA := get_state doc
  let readB := get_state doc
  let writeA := step month dA readA
  let writeB := step month dB readB
  (fun _lost => writeB) writeA

/-- The same two invocations run one after the other: the second reads the
state the first persisted. -/
def seq_final (month : Nat) (dA dB : SensorData) (doc : Option RiskState) : RiskState :=
  step month dB (step month dA (get_state doc))

/-- The extreme reading of the spec scenario: temp 40, turb 500, tds 1000,
ph 9, flow 0 (every risk flag active). -/
def extreme_reading : SensorData :=
  { ph := 9, temp := 40, tds := 1000, turb := 500, flow := 0 }

/-- A cool-zone reading whose non-temperature flags alone reach the
increment cutoff: ph 7.5, temp 20, tds 250, turb 50, flow 0. -/
def cool_risky : SensorData :=
  { ph := (7.5 : ℚ), temp := 20, tds := 250, turb := 50, flow := 0 }

/-- The largest biological score the scoring rules can attain: high
temperature 3, turbidity 1.5, TDS 1, stagnation 1, pH 0.5 and the seasonal
boost 0.5. -/
def max_possible_score : ℚ := 7.5

/-- Modelled from the spec: the normalization the spec prescribes for the
decision record, clamp(round(bio_score / max_possible_score * 100), 0, 100),
with max_possible_score the largest attainable biological score. Stated
for comparison with the source's `risk_percent`. -/
def risk_percent_spec (score : ℚ) : Int :=
  max 0 (min 100 (round (score / max_possible_score * 100)))

example : bio_score extreme_reading 1 = 7 := by decide
example : bio_score extreme_reading 7 = (7.5 : ℚ) := by decide
example : bio_score cool_risky 1 = 4 := by decide
example : other_score extreme_reading = (3.5 : ℚ) := by decide
example : risk_percent extreme_reading 1 = 100 := by decide
example : risk_percent { ph := 7, temp := 34, tds := 0, turb := 0, flow := 1 } 1 = 42 := by
  decide
example : risk_percent_spec 3 = 40 := by decide
example : step 1 extreme_reading { high_count := 0, status := Status.SAFE }
    = { high_count := 1, status := Status.WARNING } := by decide
example : run_from 1 extreme_reading { high_count := 0, status := Status.SAFE } 6
    = { high_count := 6, status := Status.HIGH_RISK } := by decide
example : run_from 1 extreme_reading { high_count := 0, status := Status.SAFE } 5
    = { high_count := 5, status := Status.WARNING } := by decide

/-- Every summand of the biological score is nonnegative. -/
theorem bio_score_nonneg (d : SensorData) (month : Nat) : 0 ≤ bio_score d month := by
  unfold bio_score
  split_ifs <;> norm_num

/-- The biological score never exceeds the attainable maximum 7.5. -/
theorem bio_score_le_max (d : SensorData) (month : Nat) :
    bio_score d month ≤ max_possible_score := by
  unfold bio_score max_possible_score
  split_ifs <;> norm_num

/-- The maximum 7.5 is attained, by the extreme reading in July. -/
theorem max_possible_score_attained : bio_score extreme_reading 7 = max_possible_score := by
  decide

/-- From a zero counter, one update leaves the counter at most 1. -/
theorem update_high_count_zero_le_one (s : ℚ) : update_high_count s 0 ≤ 1 := by
  unfold update_high_count
  split_ifs <;> decide

/-- The decision yields HIGH_RISK only when the updated counter has
reached the confirmation threshold 6. -/
theorem new_status_high_risk_le (d : SensorData) (hc : Int)
    (h : new_status d hc = Status.HIGH_RISK) : 6 ≤ hc := by
  unfold new_status at h
  split_ifs at h
  all_goals simp_all

/-- The extreme reading scores at least 4 in every month. -/
theorem bio_score_extreme_ge (month : Nat) : 4 ≤ bio_score extreme_reading month := by
  have e1 : high_temp extreme_reading = true := by decide
  have e2 : turb_risk extreme_reading = true := by decide
  have e3 : tds_risk extreme_reading = true := by decide
  have e4 : flow_risk extreme_reading = true := by decide
  have e5 : ph_risk extreme_reading = true := by decide
  unfold bio_score
  cases hs : season_boost month extreme_reading
  all_goals simp [hs, e1, e2, e3, e4, e5]
  all_goals norm_num

/-- A fold of all-safe readings is the clamped linear decay of the counter. -/
theorem fold_high_count_all_safe (month : Nat) (ds : List SensorData) :
    ∀ hc : Int, 0 ≤ hc → (∀ d ∈ ds, bio_score d month < 4) →
      fold_high_count month ds hc = max 0 (hc - 2 * ds.length) := by
  induction ds with
  | nil =>
      intro hc h0 _
      simp [fold_high_count]
      omega
  | cons d ds ih =>
      intro hc h0 hall
      have hd : bio_score d month < 4 := hall d (List.mem_cons_self d ds)
      have hstep : fold_high_count month (d :: ds) hc
          = fold_high_count month ds (update_high_count (bio_score d month) hc) := rfl
      have hupd : update_high_count (bio_score d month) hc = max 0 (hc - 2) := by
        unfold update_high_count
        rw [if_neg (not_le.mpr hd)]
      rw [hstep, hupd,
        ih _ (le_max_left _ _) (fun x hx => hall x (List.mem_cons_of_mem d hx))]
      simp only [List.length_cons]
      push_cast
      omega

/-- C1: for every reading whose temperature is in the cool zone (temp < 25)
and every prior RiskState, the status produced by the /predict decision
logic is SAFE, regardless of ph, tds, turb and flow (pathological values
included) and regardless of the prior high_count and status. -/
theorem C1_cool_temperature_gate (d : SensorData) (month : Nat) (prior : RiskState)
    (h : d.temp < 25) :
    (step month d prior).status = Status.SAFE := by
  have hc : cool_temp d = true := decide_eq_true h
  simp [step, save_state, new_status, hc]

/-- C1 witness: temp 20 with pathological turb 10000, tds 1000, ph 9,
stagnant flow, from the prior state (high_count 100, HIGH_RISK). -/
theorem C1_cool_temperature_gate_witness :
    (step 7 { ph := 9, temp := 20, tds := 1000, turb := 10000, flow := 0 }
      { high_count := 100, status := Status.HIGH_RISK }).status = Status.SAFE :=
  C1_cool_temperature_gate _ 7 _ (by decide)

/-- C2: from a prior state with high_count 0 (and any prior status), the
reading temp 40, turb 500, tds 1000, ph 9, flow 0 yields WARNING in every
month; and in general a single invocation from high_count 0 never yields
HIGH_RISK, the confirmation threshold being 6 > 1. -/
theorem C2_no_single_shot_high_risk :
    (∀ (month : Nat) (st : Status),
      (step month extreme_reading { high_count := 0, status := st }).status
        = Status.WARNING)
    ∧ ∀ (month : Nat) (d : SensorData) (st : Status),
        severity (step month d { high_count := 0, status := st }).status
          < severity Status.HIGH_RISK := by
  constructor
  · intro month st
    have hb : 4 ≤ bio_score extreme_reading month := bio_score_extreme_ge month
    have h1 : update_high_count (bio_score extreme_reading month) 0 = 1 := by
      unfold update_high_count
      rw [if_pos hb]
      decide
    have hcool : cool_temp extreme_reading = false := by decide
    have hmod : moderate_temp extreme_reading = false := by decide
    have hother : ¬ other_score extreme_reading < 1.5 := by decide
    simp [step, save_state, new_status, h1, hcool, hmod, hother]
  · intro month d st
    have h1 : update_high_count (bio_score d month) 0 ≤ 1 :=
      update_high_count_zero_le_one _
    have h6 : ¬ 6 ≤ update_high_count (bio_score d month) 0 := by omega
    have hstep : (step month d { high_count := 0, status := st }).status
        = new_status d (update_high_count (bio_score d month) 0) := rfl
    rw [hstep]
    cases hst : new_status d (update_high_count (bio_score d month) 0) with
    | SAFE => decide
    | WARNING => decide
    | HIGH_RISK => exact absurd (new_status_high_risk_le d _ hst) h6

/-- C3: replaying one extreme reading (high-zone temperature, other_score
at or above the 1.5 secondary threshold, bio_score at or above the
increment cutoff 4) from the fresh state yields a status strictly below
HIGH_RISK on invocations 1 through 5 and HIGH_RISK on exactly the 6th. -/
theorem C3_sustained_escalation (d : SensorData) (month : Nat)
    (h1 : 34 ≤ d.temp) (h2 : (1.5 : ℚ) ≤ other_score d)
    (h3 : 4 ≤ bio_score d month) :
    (∀ k, 1 ≤ k → k < 6 →
      severity (run_from month d { high_count := 0, status := Status.SAFE } k).status
        < severity Status.HIGH_RISK)
    ∧ (run_from month d { high_count := 0, status := Status.SAFE } 6).status
        = Status.HIGH_RISK := by
  have hcool : cool_temp d = false := decide_eq_false (by intro hlt; linarith)
  have hmod : moderate_temp d = false := by
    refine decide_eq_false ?_
    rintro ⟨-, hlt⟩
    linarith
  have hother : ¬ other_score d < 1.5 := not_lt.mpr h2
  have hcount : ∀ k : Nat,
      (run_from month d { high_count := 0, status := Status.SAFE } k).high_count
        = (k : Int) := by
    intro k
    induction k with
    | zero => rfl
    | succ n ih =>
        have : run_from month d { high_count := 0, status := Status.SAFE } (n + 1)
            = step month d (run_from month d { high_count := 0, status := Status.SAFE } n) :=
          rfl
        rw [this]
        simp [step, save_state, update_high_count, if_pos h3, ih]
  have hstat : ∀ n : Nat,
      (run_from month d { high_count := 0, status := Status.SAFE } (n + 1)).status
        = if 6 ≤ (n : Int) + 1 then Status.HIGH_RISK else Status.WARNING := by
    intro n
    have hr : run_from month d { high_count := 0, status := Status.SAFE } (n + 1)
        = step month d (run_from month d { high_count := 0, status := Status.SAFE } n) :=
      rfl
    rw [hr]
    simp [step, save_state, new_status, hcool, hmod, hother, update_high_count,
      if_pos h3, hcount n]
  constructor
  · intro k hk1 hk6
    obtain ⟨n, rfl⟩ : ∃ n, k = n + 1 := ⟨k - 1, by omega⟩
    rw [hstat n, if_neg (by omega)]
    decide
  · have h6 : (6 : Nat) = 5 + 1 := rfl
    rw [h6, hstat 5, if_pos (by norm_num)]

/-- C3 witness: the extreme reading in January, replayed six times. -/
theorem C3_sustained_escalation_witness :
    (run_from 1 extreme_reading { high_count := 0, status := Status.SAFE } 6).status
      = Status.HIGH_RISK :=
  (C3_sustained_escalation extreme_reading 1 (by decide) (by decide) (by decide)).2

/-- C4: the counter never goes negative (a nonnegative prior stays
nonnegative); with increment 1 and decay 2, one risky reading then one
safe reading returns a fresh counter exactly to 0; and over any all-safe
sequence the counter follows the clamped decay max 0 (prior - 2k), hence
converges to 0 and stays there. -/
theorem C4_counter_clamped_decay :
    (∀ (d : SensorData) (month : Nat) (hc : Int), 0 ≤ hc →
        0 ≤ update_high_count (bio_score d month) hc)
    ∧ (∀ (dR dS : SensorData) (mR mS : Nat), 4 ≤ bio_score dR mR →
        bio_score dS mS < 4 →
        update_high_count (bio_score dS mS) (update_high_count (bio_score dR mR) 0) = 0)
    ∧ (∀ (month : Nat) (ds : List SensorData) (hc : Int), 0 ≤ hc →
        (∀ d ∈ ds, bio_score d month < 4) →
        fold_high_count month ds hc = max 0 (hc - 2 * ds.length))
    ∧ ∀ (month : Nat) (ds : List SensorData) (hc : Int), 0 ≤ hc →
        hc ≤ 2 * ds.length → (∀ d ∈ ds, bio_score d month < 4) →
        fold_high_count month ds hc = 0 := by
  refine ⟨?_, ?_, fun month ds hc h0 hall => fold_high_count_all_safe month ds hc h0 hall, ?_⟩
  · intro d month hc h0
    unfold update_high_count
    split_ifs <;> omega
  · intro dR dS mR mS hR hS
    have h1 : update_high_count (bio_score dR mR) 0 = 1 := by
      unfold update_high_count
      rw [if_pos hR]
      decide
    rw [h1]
    unfold update_high_count
    rw [if_neg (not_le.mpr hS)]
    decide
  · intro month ds hc h0 hlen hall
    rw [fold_high_count_all_safe month ds hc h0 hall]
    omega

/-- C5: the code has no handler around the classifier call (lines 90-92),
so a classifier failure aborts the whole /predict invocation in every
configuration: no decision, no counter update, no persisted state, no
UNKNOWN sentinel. This refutes the claim that the engine recovers with a
rule-based decision. -/
theorem C5_classifier_failure_is_fatal :
    (∀ (month : Nat) (doc : Option RiskState) (d : SensorData),
      predict none month doc d = Except.error ())
    ∧ predict none 1 (some { high_count := 0, status := Status.SAFE }) extreme_reading
        = Except.error () :=
  ⟨fun _ _ _ => rfl, rfl⟩

/-- C6 counterexample: for the reading ph 7, temp 34, tds 0, turb 0,
flow 1 in January the score is 3; the code computes
min(100, int((3/7)*100)) = 42, while the claimed formula
clamp(round(bio_score / max_possible_score * 100), 0, 100) gives 40 with
the attainable maximum 7.5 (and 43 even with divisor 7), so the claim
fails: the code truncates and divides by the unattainable 7. -/
theorem C6_risk_percent_counterexample :
    bio_score { ph := 7, temp := 34, tds := 0, turb := 0, flow := 1 } 1 = 3
    ∧ risk_percent { ph := 7, temp := 34, tds := 0, turb := 0, flow := 1 } 1 = 42
    ∧ risk_percent_spec 3 = 40
    ∧ max 0 (min 100 (round ((3 : ℚ) / 7 * 100))) = 43
    ∧ risk_percent { ph := 7, temp := 34, tds := 0, turb := 0, flow := 1 } 1
        ≠ risk_percent_spec
            (bio_score { ph := 7, temp := 34, tds := 0, turb := 0, flow := 1 } 1) := by
  refine ⟨by decide, by decide, by decide, by decide, by decide⟩

/-- C6 amended: the risk_percent of the returned decision equals
min(100, floor(bio_score / 7 * 100)) - truncation toward zero of the
score normalized by the hard-coded divisor 7 (not the attainable maximum
7.5), with no rounding; it still always lies in 0..100 because the score
is nonnegative. -/
theorem C6_risk_percent_truncated_by_seven (d : SensorData) (month : Nat) :
    risk_percent d month = min 100 ⌊bio_score d month / 7 * 100⌋
    ∧ 0 ≤ risk_percent d month
    ∧ risk_percent d month ≤ 100 := by
  have h0 : 0 ≤ bio_score d month / 7 * 100 := by
    have := bio_score_nonneg d month
    positivity
  refine ⟨?_, ?_, min_le_left _ _⟩
  · unfold risk_percent py_int
    rw [if_pos h0]
  · unfold risk_percent py_int
    rw [if_pos h0]
    exact le_min (by norm_num) (Int.floor_nonneg.mpr h0)

/-- C7: reading the persisted state when no document exists yields the
default (high_count 0, SAFE), and the first-ever invocation of /predict
behaves exactly as one starting from that default state. -/
theorem C7_missing_state_defaults_safe :
    get_state none = { high_count := 0, status := Status.SAFE }
    ∧ ∀ (cls : Option String) (month : Nat) (d : SensorData),
        predict cls month none d
          = predict cls month (some { high_count := 0, status := Status.SAFE }) d := by
  refine ⟨rfl, ?_⟩
  intro cls month d
  cases cls <;> rfl

/-- C8: run sequentially, two risky extreme readings raise the persisted
counter from 0 to 2; but under the read-read-write-write interleaving of
the same two /predict invocations the persisted counter ends at 1 - the
first increment is overwritten, because the load-decide-save sequence has
no serialization or conditional write. This refutes the claimed
concurrent-write safety. -/
theorem C8_concurrent_increment_lost :
    (seq_final 1 extreme_reading extreme_reading none).high_count = 2
    ∧ (racy_final 1 extreme_reading extreme_reading none).high_count = 1
    ∧ racy_final 1 extreme_reading extreme_reading none
        ≠ seq_final 1 extreme_reading extreme_reading none := by
  refine ⟨by decide, by decide, by decide⟩

/-- C9: the cool reading ph 7.5, temp 20, tds 250, turb 50, flow 0 scores
exactly 4 in every month, so from every prior state the invocation
increments the counter by 1 while returning SAFE: counter growth is not
gated by temperature and accumulates during cool-water periods. -/
theorem C9_cool_reading_grows_counter :
    cool_risky.temp < 25
    ∧ (∀ month : Nat, bio_score cool_risky month = 4)
    ∧ ∀ (month : Nat) (st : RiskState),
        (step month cool_risky st).high_count = st.high_count + 1
        ∧ (step month cool_risky st).status = Status.SAFE := by
  have hseason : ∀ month : Nat, season_boost month cool_risky = false := by
    intro month
    unfold season_boost
    have h30 : decide ((30 : ℚ) ≤ cool_risky.temp) = false := by decide
    rw [h30, Bool.and_false]
  have hbio : ∀ month : Nat, bio_score cool_risky month = 4 := by
    intro month
    unfold bio_score
    rw [hseason month]
    decide
  refine ⟨by decide, hbio, ?_⟩
  intro month st
  have hupd : update_high_count (bio_score cool_risky month) st.high_count
      = st.high_count + 1 := by
    rw [hbio month]
    unfold update_high_count
    rw [if_pos (le_refl (4 : ℚ))]
  constructor
  · show update_high_count (bio_score cool_risky month) st.high_count = st.high_count + 1
    exact hupd
  · have hs : (step month cool_risky st).status
        = new_status cool_risky (update_high_count (bio_score cool_risky month) st.high_count) :=
      rfl
    rw [hs]
    have hc : cool_temp cool_risky = true := by decide
    simp [new_status, hc]

/-- C10: whenever /predict completes successfully, the high_count and
status written to the persisted RiskState are exactly the high_count and
status fields of the DecisionRecord logged and returned. -/
theorem C10_persisted_equals_returned (cls : Option String) (month : Nat)
    (doc : Option RiskState) (d : SensorData) (st : RiskState) (rec : DecisionRecord)
    (h : predict cls month doc d = Except.ok (st, rec)) :
    rec.high_count = st.high_count ∧ rec.status = st.status := by
  cases cls with
  | none => simp [predict] at h
  | some label =>
      simp only [predict, Except.ok.injEq, Prod.mk.injEq] at h
      obtain ⟨hst, hrec⟩ := h
      subst hst
      subst hrec
      exact ⟨rfl, rfl⟩

/-- The state /predict persists for the extreme reading in January from no
stored document. -/
def january_extreme_state : RiskState := { high_count := 1, status := Status.WARNING }

/-- The record /predict logs and returns for the extreme reading in January
from no stored document, under the advisory label SAFE. -/
def january_extreme_record : DecisionRecord :=
  { ph := 9, temp := 40, tds := 1000, turb := 500, flow := 0, instant := "SAFE",
    bio_score := 7, risk_percent := 100, high_count := 1, status := Status.WARNING }

/-- C10 witness: the extreme reading in January from no stored state; the
persisted state is (1, WARNING) and the returned record carries the same
counter and status. -/
theorem C10_persisted_equals_returned_witness :
    january_extreme_record.high_count = january_extreme_state.high_count
    ∧ january_extreme_record.status = january_extreme_state.status :=
  C10_persisted_equals_returned (some "SAFE") 1 none extreme_reading
    january_extreme_state january_extreme_record rfl

end SafeWave
